import Mathlib

/-!
Shallow embedding of the real-time websocket hub of the social-network
backend (package `websocket`: hub.go, chat.go, gifMsg.go, utils.go,
client.go, messageTypes.go), together with the slice of the SQLite
persistence layer those functions touch (chat_threads, chat_participants,
messages, message_reads, followers, group_memberships, users).

Go maps are modelled as association lists with at most the Go semantics
needed (lookup / replace-insert / erase); Go channels as a closed flag plus
a FIFO buffer; goroutine side effects that the hub functions spawn are
recorded as an explicit effect trace in program order.
-/

namespace SocialNetwork

/-! ### Association-list helpers (model of Go maps) -/

section AssocList

variable {α β : Type} [DecidableEq α]

def alookup : List (α × β) → α → Option β
  | [], _ => none
  | (k, v) :: rest, a => if k = a then some v else alookup rest a

def ainsert : List (α × β) → α → β → List (α × β)
  | [], a, b => [(a, b)]
  | (k, v) :: rest, a, b =>
    if k = a then (a, b) :: rest else (k, v) :: ainsert rest a b

def aerase : List (α × β) → α → List (α × β)
  | [], _ => []
  | (k, v) :: rest, a => if k = a then rest else (k, v) :: aerase rest a

end AssocList

/-! ### Substring test (model of Go strings.Contains) -/

def listStartsWith : List Char → List Char → Bool
  | [], _ => true
  | _ :: _, [] => false
  | a :: as, b :: bs => a == b && listStartsWith as bs

def listContainsSub (sub : List Char) : List Char → Bool
  | [] => sub.isEmpty
  | c :: rest => listStartsWith sub (c :: rest) || listContainsSub sub rest

def strContains (s sub : String) : Bool :=
  listContainsSub sub.toList s.toList

/-! ### Persistent store model

One record per row of the tables the hub touches.  Thread participants are
the chat_participants rows of a thread.  `followers` holds
(follower_id, followee_id) rows; `groupMemberships` holds
(group_id, user_id) rows; `users` holds (id, display name, avatar path).
-/

structure ChatThread where
  id : Nat
  isGroup : Bool
  groupId : String
  participants : List String
deriving DecidableEq, Repr

structure MessageRow where
  id : Nat
  chatId : Nat
  senderId : String
  content : String
  messageType : String
  createdAt : Nat
deriving DecidableEq, Repr

structure DB where
  threads : List ChatThread
  nextThreadId : Nat
  messages : List MessageRow
  nextMessageId : Nat
  messageReads : List (String × String)
  followers : List (String × String)
  groupMemberships : List (String × String)
  users : List (String × String × String)
deriving DecidableEq, Repr

/-- Predicate of the SQL search in getOrCreatePrivateChatThread: a
non-group thread having a participant row for each of the two users and
exactly two participant rows in total. -/
def matchesPrivatePair (t : ChatThread) (u1 u2 : String) : Bool :=
  !t.isGroup && t.participants.contains u1 && t.participants.contains u2
    && t.participants.length == 2

/-- chat.go getOrCreatePrivateChatThread: reuse the first thread matching
the pair query, otherwise insert a chat_threads row and two
chat_participants rows inside the same transaction. -/
def getOrCreatePrivateChatThread (db : DB) (u1 u2 : String) : Nat × DB :=
  match db.threads.find? (fun t => matchesPrivatePair t u1 u2) with
  | some t => (t.id, db)
  | none =>
    let cid := db.nextThreadId
    let t : ChatThread := ⟨cid, false, "", [u1, u2]⟩
    (cid, { db with threads := db.threads ++ [t], nextThreadId := cid + 1 })

/-- chat.go GetOrCreatePrivateChat: canonicalizes the argument order, then
runs the same pair query / create logic inside one transaction.  Only the
resolved thread id is modelled; the ChatRoom decoration it returns is a
read-only view. -/
def GetOrCreatePrivateChat (db : DB) (userID1 userID2 : String) : Nat × DB :=
  if userID2 < userID1 then getOrCreatePrivateChatThread db userID2 userID1
  else getOrCreatePrivateChatThread db userID1 userID2

/-- Number of non-group threads whose participant rows are exactly the
two given users. -/
def countMatching (db : DB) (u1 u2 : String) : Nat :=
  (db.threads.filter (fun t => matchesPrivatePair t u1 u2)).length

/-- chat.go getOrCreateGroupChatThread: reuse the thread keyed by the
group id, otherwise create it and copy the group_memberships rows into
chat_participants (INSERT OR IGNORE, so without duplicates). -/
def getOrCreateGroupChatThread (db : DB) (groupID : String) : Nat × DB :=
  match db.threads.find? (fun t => t.isGroup && t.groupId == groupID) with
  | some t => (t.id, db)
  | none =>
    let cid := db.nextThreadId
    let members :=
      ((db.groupMemberships.filter (fun p => p.1 == groupID)).map Prod.snd).dedup
    let t : ChatThread := ⟨cid, true, groupID, members⟩
    (cid, { db with threads := db.threads ++ [t], nextThreadId := cid + 1 })

/-- chat.go getChatParticipants: the chat_participants rows of the thread
whose id is the given (stringified) chat id. -/
def getChatParticipants (db : DB) (chatID : String) : List String :=
  match db.threads.find? (fun t => toString t.id == chatID) with
  | some t => t.participants
  | none => []

/-- chat.go getRelatedUsers: SELECT DISTINCT over followers rows touching
the user, yielding the row's other endpoint. -/
def getRelatedUsers (fs : List (String × String)) (userID : String) : List String :=
  (((fs.filter (fun p => p.1 == userID || p.2 == userID)).map
    (fun p => if p.1 == userID then p.2 else p.1))).dedup

/-- The sender-info query of chat.go handleChatMessage / gifMsg.go
handleGifMessage: name and avatar of the users row with the given id
(None models sql.ErrNoRows). -/
def senderInfo (db : DB) (userID : String) : Option (String × String) :=
  match db.users.find? (fun u => u.1 == userID) with
  | some u => some u.2
  | none => none

/-- The CHECK constraint of the messages table
(migration 000015): message_type IN ('text','emoji','media'). -/
def messageTypeCheckOK (mt : String) : Bool :=
  mt == "text" || mt == "emoji" || mt == "media"

/-! ### Wire messages and hub state -/

structure TypingMessage where
  userID : String
  nickName : String
  chatID : String
  isTyping : Bool
deriving DecidableEq, Repr

structure UserStatusMessage where
  userID : String
  isOnline : Bool
  lastSeen : Nat
deriving DecidableEq, Repr

structure ChatMessage where
  id : String
  chatID : String
  senderID : String
  senderName : String
  senderAvatar : String
  content : String
  messageType : String
  timestamp : Nat
  recipientID : String
  groupID : String
deriving DecidableEq, Repr

/-- A client session: Go identifies a *Client by pointer; `cid` plays the
pointer's role.  The send channel lives in the hub state keyed by `cid`. -/
structure Client where
  cid : Nat
  userID : String
deriving DecidableEq, Repr

/-- A Go channel of outbound frames: closed flag plus FIFO buffer. -/
structure Chan where
  closed : Bool
  buffer : List String
deriving DecidableEq, Repr

structure Hub where
  clients : List Client
  userConnections : List (String × List Client)
  typingUsers : List (String × List (String × TypingMessage))
  userStatus : List (String × UserStatusMessage)
  channels : List (Nat × Chan)
deriving DecidableEq, Repr

/-- Typed payload of an outbound WSMessage (only the shapes the claims
inspect are distinguished; chat lists are identified by their target). -/
inductive Payload where
  | chat (msg : ChatMessage)
  | gif (msg : ChatMessage)
  | gifError (text : String)
  | typing (msgs : List TypingMessage)
  | status (msg : UserStatusMessage)
  | chatList (userID : String)
deriving DecidableEq, Repr

/-- Observable side effects of a hub/session operation, in program order.
`sendToUser` / `sendToUsers` are the hub fan-out entry points;
`mutateTyping` marks the typing-map write of HandleTyping. -/
inductive Effect where
  | sendToUser (userID : String) (p : Payload)
  | sendToUsers (userIDs : List String) (p : Payload)
  | mutateTyping (chatID userID : String) (isTyping : Bool)
deriving DecidableEq, Repr

/-- The user ids an effect addresses. -/
def targetsOf : Effect → List String
  | .sendToUser u _ => [u]
  | .sendToUsers us _ => us
  | .mutateTyping _ _ _ => []

/-! ### Hub operations (hub.go) -/

/-- hub.go broadcastUserStatus: one status frame fanned out to the related
users, then one refreshed chat list pushed to each related user. -/
def broadcastUserStatus (fs : List (String × String)) (userID : String)
    (isOnline : Bool) (now : Nat) : List Effect :=
  let related := getRelatedUsers fs userID
  Effect.sendToUsers related (.status ⟨userID, isOnline, now⟩)
    :: related.map (fun r => Effect.sendToUser r (.chatList r))

/-- hub.go addUserConnectionUnsafe. -/
def addUserConnection (conns : List (String × List Client)) (c : Client) :
    List (String × List Client) :=
  ainsert conns c.userID (((alookup conns c.userID).getD []) ++ [c])

/-- hub.go removeUserConnectionUnsafe: drop the first matching session;
delete the key when its list becomes empty. -/
def removeUserConnection (conns : List (String × List Client)) (c : Client) :
    List (String × List Client) :=
  let cur := ((alookup conns c.userID).getD []).erase c
  if cur.isEmpty then aerase conns c.userID else ainsert conns c.userID cur

/-- hub.go handleRegister: insert into registry and connection list, write
the user's status record as online, then (in spawned tasks) push the chat
list to the new session's user and broadcast the status change.  The
broadcast is unconditional in the source. -/
def handleRegister (hub : Hub) (fs : List (String × String)) (c : Client)
    (now : Nat) : Hub × List Effect :=
  let clients' := if hub.clients.contains c then hub.clients else hub.clients ++ [c]
  let hub1 : Hub := { hub with
    clients := clients'
    userConnections := addUserConnection hub.userConnections c
    userStatus := ainsert hub.userStatus c.userID ⟨c.userID, true, now⟩ }
  (hub1, Effect.sendToUser c.userID (.chatList c.userID)
    :: broadcastUserStatus fs c.userID true now)

/-- The channel-closing step of hub.go handleUnregister, with Go select
semantics: the receive case is ready when the channel is closed or has a
buffered element (in which case one element is consumed); only when the
receive case is not ready does the default branch close the channel. -/
def closeChanStep (ch : Chan) : Chan :=
  if ch.closed || !ch.buffer.isEmpty then { ch with buffer := ch.buffer.tail }
  else { ch with closed := true }

/-- hub.go handleUnregister: remove a registered session from registry and
connection list, run the guarded close of its send channel, and when the
user has no remaining connections write the status record as offline and
broadcast it (spawned task, modelled as completing). -/
def handleUnregister (hub : Hub) (fs : List (String × String)) (c : Client)
    (now : Nat) : Hub × List Effect :=
  if hub.clients.contains c then
    let conns' := removeUserConnection hub.userConnections c
    let ch := (alookup hub.channels c.cid).getD ⟨false, []⟩
    let hub1 : Hub := { hub with
      clients := hub.clients.erase c
      userConnections := conns'
      channels := ainsert hub.channels c.cid (closeChanStep ch) }
    if ((alookup conns' c.userID).getD []).isEmpty then
      ({ hub1 with userStatus := ainsert hub1.userStatus c.userID ⟨c.userID, false, now⟩ },
       broadcastUserStatus fs c.userID false now)
    else (hub1, [])
  else (hub, [])

/-- hub.go HandleTyping: build the typing frame, fetch the participants
(the Except argument is the outcome of that query), fan the frame out to
them, and only then mutate the typing map: insert on isTyping, delete on
not, pruning the per-chat map when it empties. -/
def HandleTyping (hub : Hub) (partsRes : Except Unit (List String))
    (chatID userID nickName : String) (isTyping : Bool) : Hub × List Effect :=
  let tm : TypingMessage := ⟨userID, nickName, chatID, isTyping⟩
  match partsRes with
  | .error _ => (hub, [])
  | .ok participants =>
    let cur := (alookup hub.typingUsers chatID).getD []
    let hub' :=
      if isTyping then
        { hub with typingUsers := ainsert hub.typingUsers chatID (ainsert cur userID tm) }
      else
        let cur' := aerase cur userID
        if cur'.isEmpty then { hub with typingUsers := aerase hub.typingUsers chatID }
        else { hub with typingUsers := ainsert hub.typingUsers chatID cur' }
    (hub', [Effect.sendToUsers participants (.typing [tm]),
            Effect.mutateTyping chatID userID isTyping])

/-- hub.go GetOnlineUsers: among the status records, keep the users that
are online, differ from the requester and appear in the requester's
related-users set. -/
def GetOnlineUsers (hub : Hub) (fs : List (String × String))
    (requestingUserID : String) : List String :=
  let related := getRelatedUsers fs requestingUserID
  ((hub.userStatus.filter (fun p =>
    p.2.isOnline && p.1 != requestingUserID && related.contains p.1)).map Prod.fst)

/-! ### Chat persistence and message handlers (chat.go, gifMsg.go) -/

/-- Number of message_reads rows for a (message, user) pair. -/
def countRead (reads : List (String × String)) (messageID userID : String) : Nat :=
  (reads.filter (fun p => p.1 == messageID && p.2 == userID)).length

/-- chat.go updateReadMessages: for each message id of the batch, count
the existing read rows of the (message, user) pair and insert one only
when none exists; all inside one transaction which then commits. -/
def updateReadMessages (reads : List (String × String))
    (messageIDs : List String) (userID : String) : List (String × String) :=
  match messageIDs with
  | [] => reads
  | m :: rest =>
    let reads' := if countRead reads m userID == 0 then reads ++ [(m, userID)] else reads
    updateReadMessages reads' rest userID

/-- chat.go SaveMessageAndGetIDs: resolve the thread (group when a group
id is given, private otherwise), insert the messages row, return its id
and commit.  The insert fails — rolling the transaction back — when the
message type violates the messages table's CHECK constraint. -/
def SaveMessageAndGetIDs (db : DB) (msg : ChatMessage) (groupID : String) :
    Option (Nat × Nat × DB) :=
  let (chatID, db1) :=
    if groupID != "" then getOrCreateGroupChatThread db groupID
    else getOrCreatePrivateChatThread db msg.senderID msg.recipientID
  if messageTypeCheckOK msg.messageType then
    let mid := db1.nextMessageId
    let row : MessageRow := ⟨mid, chatID, msg.senderID, msg.content, msg.messageType, msg.timestamp⟩
    some (chatID, mid, { db1 with messages := db1.messages ++ [row], nextMessageId := mid + 1 })
  else none

/-- The message-type validation of chat.go handleChatMessage: any type
outside the allowed four is silently replaced by "text". -/
def normalizeMessageType (mt : String) : String :=
  if mt != "text" && mt != "emoji" && mt != "media" && mt != "gif" then "text" else mt

/-- chat.go sendMessageToRecipients: a private message goes to the
recipient and back to the sender as acknowledgement; a group message is
fanned out once over the thread's current chat participants. -/
def sendMessageToRecipients (db : DB) (msg : ChatMessage) : List Effect :=
  if msg.recipientID != "" then
    [Effect.sendToUser msg.recipientID (.chat msg),
     Effect.sendToUser msg.senderID (.chat msg)]
  else if msg.groupID != "" then
    [Effect.sendToUsers (getChatParticipants db msg.chatID) (.chat msg)]
  else []

/-- chat.go handleChatMessage: stamp timestamp and sender, normalize the
message type, look the sender's display data up (returning on failure),
persist (returning on failure), stamp the canonical ids and fan out. -/
def handleChatMessage (c : Client) (db : DB) (data : ChatMessage) (now : Nat) :
    DB × List Effect :=
  let msg1 := { data with
    timestamp := now
    senderID := c.userID
    messageType := normalizeMessageType data.messageType }
  match senderInfo db c.userID with
  | none => (db, [])
  | some (nm, av) =>
    let msg2 := { msg1 with senderName := nm, senderAvatar := av }
    match SaveMessageAndGetIDs db msg2 msg2.groupID with
    | none => (db, [])
    | some (chatID, mid, db') =>
      let msg3 := { msg2 with chatID := toString chatID, id := toString mid }
      (db', sendMessageToRecipients db' msg3)

/-- gifMsg.go isValidGifMessage: non-empty content that contains the
trusted media domain "tenor.com". -/
def isValidGifMessage (gifMsg : ChatMessage) : Bool :=
  if gifMsg.content == "" then false
  else strContains gifMsg.content "tenor.com"

/-- gifMsg.go handleGifMessage: validate first — an invalid payload only
produces the typed media-error frame back to the sender; a valid one is
stamped as a "media" message, persisted, and for the private case sent to
both parties.  The group fan-out branch of the source is empty. -/
def handleGifMessage (c : Client) (db : DB) (gifMsg0 : ChatMessage) (now : Nat) :
    DB × List Effect :=
  if !isValidGifMessage gifMsg0 then
    (db, [Effect.sendToUser c.userID (.gifError "Invalid GIF message")])
  else
    let g1 := { gifMsg0 with timestamp := now, senderID := c.userID, messageType := "media" }
    match senderInfo db c.userID with
    | none => (db, [])
    | some (nm, av) =>
      let g2 := { g1 with senderName := nm, senderAvatar := av }
      if g2.recipientID != "" then
        match SaveMessageAndGetIDs db g2 "" with
        | none => (db, [])
        | some (chatID, mid, db') =>
          let g3 := { g2 with chatID := toString chatID, id := toString mid }
          (db', [Effect.sendToUser g3.recipientID (.gif g3),
                 Effect.sendToUser c.userID (.gif g3)])
      else if g2.groupID != "" then
        match SaveMessageAndGetIDs db g2 g2.groupID with
        | none => (db, [])
        | some (_, _, db') => (db', [])
      else (db, [])

/-! ### C1: private-thread find-or-create -/

theorem matchesPrivatePair_symm (t : ChatThread) (u1 u2 : String) :
    matchesPrivatePair t u2 u1 = matchesPrivatePair t u1 u2 := by
  unfold matchesPrivatePair
  cases t.isGroup <;>
    cases h1 : t.participants.contains u1 <;>
      cases h2 : t.participants.contains u2 <;> simp [h1, h2]

theorem matchesPrivatePair_new (cid : Nat) (u1 u2 : String) :
    matchesPrivatePair ⟨cid, false, "", [u1, u2]⟩ u1 u2 = true := by
  simp [matchesPrivatePair, List.contains_cons]

theorem getOrCreatePrivateChatThread_found (d : DB) (u1 u2 : String)
    (t : ChatThread)
    (hfd : d.threads.find? (fun t => matchesPrivatePair t u1 u2) = some t) :
    getOrCreatePrivateChatThread d u1 u2 = (t.id, d) := by
  simp [getOrCreatePrivateChatThread, hfd]

theorem getOrCreatePrivateChatThread_stable (db : DB) (u1 u2 : String) :
    getOrCreatePrivateChatThread (getOrCreatePrivateChatThread db u1 u2).2 u1 u2
      = getOrCreatePrivateChatThread db u1 u2 := by
  rcases hf : db.threads.find? (fun t => matchesPrivatePair t u1 u2) with _ | t
  · simp only [getOrCreatePrivateChatThread, hf]
    rw [List.find?_append, hf]
    simp [matchesPrivatePair_new]
  · simp [getOrCreatePrivateChatThread, hf]

theorem countMatching_after (db : DB) (u1 u2 : String) :
    (db.threads.find? (fun t => matchesPrivatePair t u1 u2) = none →
      countMatching (getOrCreatePrivateChatThread db u1 u2).2 u1 u2 = 1) ∧
    (∀ t, db.threads.find? (fun t => matchesPrivatePair t u1 u2) = some t →
      (getOrCreatePrivateChatThread db u1 u2).2 = db) := by
  constructor
  · intro hf
    have hnil : db.threads.filter (fun t => matchesPrivatePair t u1 u2) = [] := by
      rw [List.filter_eq_nil_iff]
      intro a ha
      have := List.find?_eq_none.mp hf a ha
      simpa using this
    simp only [getOrCreatePrivateChatThread, hf, countMatching]
    rw [List.filter_append, hnil]
    simp [matchesPrivatePair_new]
  · intro t hf
    simp [getOrCreatePrivateChatThread, hf]

/-- C1: repeated calls to find-or-create the private thread of a pair
return the same thread identifier and leave the store unchanged (also
through the canonicalizing GetOrCreatePrivateChat entry point); when no
matching thread exists one is created with exactly the two users as its
participants, and the number of private threads for the pair never grows
beyond one. -/
theorem privateThread_findOrCreate_idempotent_unique
    (db : DB) (u1 u2 : String) (h : u1 ≠ u2) :
    getOrCreatePrivateChatThread (getOrCreatePrivateChatThread db u1 u2).2 u1 u2
        = getOrCreatePrivateChatThread db u1 u2
    ∧ GetOrCreatePrivateChat (getOrCreatePrivateChatThread db u1 u2).2 u1 u2
        = getOrCreatePrivateChatThread db u1 u2
    ∧ (countMatching db u1 u2 = 0 →
        countMatching (getOrCreatePrivateChatThread db u1 u2).2 u1 u2 = 1
        ∧ ∃ t, t ∈ (getOrCreatePrivateChatThread db u1 u2).2.threads
            ∧ t.id = (getOrCreatePrivateChatThread db u1 u2).1
            ∧ t.isGroup = false ∧ t.participants = [u1, u2])
    ∧ (countMatching db u1 u2 ≤ 1 →
        countMatching (getOrCreatePrivateChatThread db u1 u2).2 u1 u2 ≤ 1) := by
  have hpred : (fun t => matchesPrivatePair t u2 u1)
      = (fun t => matchesPrivatePair t u1 u2) := by
    funext t; exact matchesPrivatePair_symm t u1 u2
  have hfind : ∃ t, (getOrCreatePrivateChatThread db u1 u2).2.threads.find?
        (fun t => matchesPrivatePair t u1 u2) = some t
      ∧ t.id = (getOrCreatePrivateChatThread db u1 u2).1 := by
    rcases hf : db.threads.find? (fun t => matchesPrivatePair t u1 u2) with _ | t
    · refine ⟨⟨db.nextThreadId, false, "", [u1, u2]⟩, ?_, ?_⟩
      · simp only [getOrCreatePrivateChatThread, hf]
        rw [List.find?_append, hf]
        simp [matchesPrivatePair_new]
      · simp [getOrCreatePrivateChatThread, hf]
    · exact ⟨t, by simp [getOrCreatePrivateChatThread, hf], by simp [getOrCreatePrivateChatThread, hf]⟩
  refine ⟨getOrCreatePrivateChatThread_stable db u1 u2, ?_, ?_, ?_⟩
  · obtain ⟨t, hfd, hid⟩ := hfind
    have hfd' : (getOrCreatePrivateChatThread db u1 u2).2.threads.find?
        (fun x => matchesPrivatePair x u2 u1) = some t := by
      rw [hpred]; exact hfd
    unfold GetOrCreatePrivateChat
    by_cases hlt : u2 < u1
    · rw [if_pos hlt, getOrCreatePrivateChatThread_found _ _ _ _ hfd', hid]
    · rw [if_neg hlt, getOrCreatePrivateChatThread_found _ _ _ _ hfd, hid]
  · intro hc
    rcases hf : db.threads.find? (fun t => matchesPrivatePair t u1 u2) with _ | t
    · refine ⟨(countMatching_after db u1 u2).1 hf, ?_⟩
      refine ⟨⟨db.nextThreadId, false, "", [u1, u2]⟩, ?_, ?_, rfl, rfl⟩
      · simp [getOrCreatePrivateChatThread, hf]
      · simp [getOrCreatePrivateChatThread, hf]
    · exfalso
      have hmem := List.mem_of_find?_eq_some hf
      have hp : matchesPrivatePair t u1 u2 = true := by
        have := List.find?_some hf
        simpa using this
      have : t ∈ db.threads.filter (fun t => matchesPrivatePair t u1 u2) :=
        List.mem_filter.mpr ⟨hmem, hp⟩
      have hpos : 0 < countMatching db u1 u2 := by
        unfold countMatching
        exact List.length_pos.mpr (fun hnil => by simp [hnil] at this)
      omega
  · intro hc
    rcases hf : db.threads.find? (fun t => matchesPrivatePair t u1 u2) with _ | t
    · rw [(countMatching_after db u1 u2).1 hf]
    · rw [(countMatching_after db u1 u2).2 t hf]
      exact hc

/-- Empty store used by concrete instantiations. -/
def dbEmpty : DB := ⟨[], 1, [], 1, [], [], [], []⟩

theorem privateThread_findOrCreate_witness :
    ("a" : String) ≠ "b"
    ∧ countMatching dbEmpty "a" "b" = 0
    ∧ countMatching (getOrCreatePrivateChatThread dbEmpty "a" "b").2 "a" "b" = 1 :=
  ⟨by decide, by decide,
    ((privateThread_findOrCreate_idempotent_unique dbEmpty "a" "b"
      (by decide)).2.2.1 (by decide)).1⟩

/-! ### Association-list lemmas -/

theorem alookup_ainsert_self {α β : Type} [DecidableEq α]
    (l : List (α × β)) (a : α) (b : β) :
    alookup (ainsert l a b) a = some b := by
  induction l with
  | nil => simp [ainsert, alookup]
  | cons kv rest ih =>
    obtain ⟨k, v⟩ := kv
    by_cases h : k = a
    · simp [ainsert, h, alookup]
    · simp [ainsert, h, alookup, ih]

/-! ### C2: no pruning of presence and typing entries on last disconnect -/

/-- A session of user "u". -/
def cliU : Client := ⟨1, "u"⟩

/-- Hub state in which user "u" has exactly one live session, an online
presence record, and a live typing entry in conversation "ch". -/
def hubC2 : Hub :=
  ⟨[cliU], [("u", [cliU])], [("ch", [("u", ⟨"u", "U", "ch", true⟩)])],
   [("u", ⟨"u", true, 0⟩)], [(1, ⟨false, []⟩)]⟩

/-- C2 counterexample: unregistering the last session of "u" leaves "u"
present in the presence map (userStatus) and present in the typing map of
conversation "ch" — the entries are not pruned, contradicting the claim
that the identifier is absent from both after the last disconnect. -/
theorem unregister_leaves_stale_entries :
    (alookup (handleUnregister hubC2 [] cliU 5).1.userStatus "u").isSome = true
    ∧ (alookup ((alookup (handleUnregister hubC2 [] cliU 5).1.typingUsers
        "ch").getD []) "u").isSome = true := by decide

/-- C2 amended: after the last session of a user is unregistered, the
user's presence record is kept in userStatus and overwritten in place as
offline with refreshed last-seen, and the typing maps are left untouched
(typing entries are removed only by an explicit typing-false event). -/
theorem unregister_last_marks_offline_in_place
    (hub : Hub) (fs : List (String × String)) (c : Client) (now : Nat)
    (hreg : hub.clients.contains c = true)
    (hlast : ((alookup (removeUserConnection hub.userConnections c)
        c.userID).getD []).isEmpty = true) :
    alookup (handleUnregister hub fs c now).1.userStatus c.userID
        = some ⟨c.userID, false, now⟩
    ∧ (handleUnregister hub fs c now).1.typingUsers = hub.typingUsers := by
  unfold handleUnregister
  rw [if_pos hreg, if_pos hlast]
  exact ⟨alookup_ainsert_self _ _ _, rfl⟩

theorem unregister_last_marks_offline_witness :
    hubC2.clients.contains cliU = true
    ∧ alookup (handleUnregister hubC2 [] cliU 5).1.userStatus "u"
        = some ⟨"u", false, 5⟩ :=
  ⟨by decide,
    (unregister_last_marks_offline_in_place hubC2 [] cliU 5
      (by decide) (by decide)).1⟩

/-! ### C3: guarded close of the outbound queue -/

/-- Hub state in which the single session of "u" still has one buffered
outbound frame in its send channel. -/
def hubC3 : Hub :=
  ⟨[cliU], [("u", [cliU])], [], [], [(1, ⟨false, ["m"]⟩)]⟩

/-- C3: the close guard of handleUnregister is the select/receive idiom;
when the outbound queue holds a buffered frame the receive case fires, so
the first unregister consumes that frame and leaves the channel open
(closed = false) instead of closing it. -/
theorem unregister_nonempty_queue_skips_close :
    alookup (handleUnregister hubC3 [] cliU 0).1.channels 1
      = some ⟨false, []⟩ := by decide

/-! ### C4: presence broadcast on every registration -/

/-- A second session of the same user "u". -/
def cliU2 : Client := ⟨2, "u"⟩

/-- Hub state in which user "u" already has a live session. -/
def hubC4 : Hub :=
  ⟨[cliU], [("u", [cliU])], [], [("u", ⟨"u", true, 0⟩)],
   [(1, ⟨false, []⟩), (2, ⟨false, []⟩)]⟩

/-- The follower rows making "v" related to "u". -/
def fsC4 : List (String × String) := [("u", "v")]

/-- C4 counterexample: "u" already has a live connection in hubC4, yet
registering an additional session still emits a presence broadcast to the
related users — contradicting the claim that only the first connection
triggers one. -/
theorem register_second_session_still_broadcasts :
    ((alookup hubC4.userConnections "u").getD []).isEmpty = false
    ∧ Effect.sendToUsers ["v"] (.status ⟨"u", true, 7⟩)
        ∈ (handleRegister hubC4 fsC4 cliU2 7).2 := by decide

/-- C4 amended: every registration (first or additional session alike)
writes the user's presence record as online and emits a presence broadcast
to the user's related users. -/
theorem register_always_broadcasts
    (hub : Hub) (fs : List (String × String)) (c : Client) (now : Nat) :
    alookup (handleRegister hub fs c now).1.userStatus c.userID
        = some ⟨c.userID, true, now⟩
    ∧ Effect.sendToUsers (getRelatedUsers fs c.userID)
        (.status ⟨c.userID, true, now⟩) ∈ (handleRegister hub fs c now).2 := by
  constructor
  · exact alookup_ainsert_self _ _ _
  · show _ ∈ Effect.sendToUser c.userID (.chatList c.userID)
      :: broadcastUserStatus fs c.userID true now
    unfold broadcastUserStatus
    exact List.mem_cons_of_mem _ (List.mem_cons_self _ _)

/-! ### C5: typing broadcast precedes the typing-map mutation -/

/-- C5: in every run of HandleTyping, any typing-map mutation event in the
effect trace is strictly preceded by the fan-out of the corresponding
typing frame to the conversation's participants; a run that fails before
broadcasting performs no mutation at all. -/
theorem typing_broadcast_precedes_mutation
    (hub : Hub) (partsRes : Except Unit (List String))
    (chatID userID nickName : String) (isTyping : Bool) (n : Nat)
    (a b : String) (ty : Bool)
    (hmut : (HandleTyping hub partsRes chatID userID nickName isTyping).2.get? n
        = some (.mutateTyping a b ty)) :
    ∃ m, m < n ∧ ∃ parts,
      (HandleTyping hub partsRes chatID userID nickName isTyping).2.get? m
        = some (.sendToUsers parts
            (.typing [⟨userID, nickName, chatID, isTyping⟩])) := by
  cases partsRes with
  | error e => simp [HandleTyping] at hmut
  | ok parts =>
    have htrace : (HandleTyping hub (.ok parts) chatID userID nickName isTyping).2
        = [.sendToUsers parts (.typing [⟨userID, nickName, chatID, isTyping⟩]),
           .mutateTyping chatID userID isTyping] := rfl
    rw [htrace] at hmut
    match n, hmut with
    | 1, _ => exact ⟨0, by omega, parts, rfl⟩

theorem typing_broadcast_precedes_mutation_witness :
    (HandleTyping hubC2 (.ok ["u", "w"]) "ch" "u" "U" false).2.get? 1
        = some (.mutateTyping "ch" "u" false)
    ∧ ∃ m, m < 1 ∧ ∃ parts,
        (HandleTyping hubC2 (.ok ["u", "w"]) "ch" "u" "U" false).2.get? m
          = some (.sendToUsers parts (.typing [⟨"u", "U", "ch", false⟩])) :=
  ⟨by decide,
    typing_broadcast_precedes_mutation hubC2 (.ok ["u", "w"]) "ch" "u" "U" false
      1 "ch" "u" false (by decide)⟩

/-! ### C6: read receipts are idempotent -/

theorem countRead_append_one (reads : List (String × String))
    (m0 m u : String) :
    countRead (reads ++ [(m0, u)]) m u
      = countRead reads m u + (if m0 == m then 1 else 0) := by
  unfold countRead
  rw [List.filter_append]
  by_cases h : m0 = m
  · simp [h]
  · have : (m0 == m) = false := by simp [h]
    simp [this, h]

theorem countRead_ge_one_preserved (reads : List (String × String))
    (batch : List String) (m u : String)
    (h : 1 ≤ countRead reads m u) :
    1 ≤ countRead (updateReadMessages reads batch u) m u := by
  induction batch generalizing reads with
  | nil => simpa [updateReadMessages] using h
  | cons m0 rest ih =>
    unfold updateReadMessages
    by_cases h0 : countRead reads m0 u == 0
    · rw [if_pos h0]
      apply ih
      rw [countRead_append_one]
      omega
    · rw [if_neg h0]
      exact ih reads h

theorem countRead_processed (reads : List (String × String))
    (batch : List String) (m u : String) (hm : m ∈ batch) :
    1 ≤ countRead (updateReadMessages reads batch u) m u := by
  induction batch generalizing reads with
  | nil => cases hm
  | cons m0 rest ih =>
    unfold updateReadMessages
    rcases List.mem_cons.mp hm with hm0 | hmr
    · subst hm0
      by_cases h0 : countRead reads m u == 0
      · rw [if_pos h0]
        apply countRead_ge_one_preserved
        rw [countRead_append_one]
        simp
      · rw [if_neg h0]
        apply countRead_ge_one_preserved
        have := of_decide_eq_false (by simpa using h0)
        omega
    · by_cases h0 : countRead reads m0 u == 0 <;>
        [rw [if_pos h0]; rw [if_neg h0]] <;> exact ih _ hmr

theorem updateReadMessages_stable (reads : List (String × String))
    (batch : List String) (u : String)
    (h : ∀ m ∈ batch, 1 ≤ countRead reads m u) :
    updateReadMessages reads batch u = reads := by
  induction batch with
  | nil => rfl
  | cons m0 rest ih =>
    unfold updateReadMessages
    have h0 : ¬(countRead reads m0 u == 0) = true := by
      have := h m0 (List.mem_cons_self _ _)
      simp
      omega
    rw [if_neg h0]
    exact ih (fun m hm => h m (List.mem_cons_of_mem _ hm))

theorem countRead_le_one_preserved (reads : List (String × String))
    (batch : List String) (m u : String)
    (h : countRead reads m u ≤ 1) :
    countRead (updateReadMessages reads batch u) m u ≤ 1 := by
  induction batch generalizing reads with
  | nil => simpa [updateReadMessages] using h
  | cons m0 rest ih =>
    unfold updateReadMessages
    by_cases h0 : countRead reads m0 u == 0
    · rw [if_pos h0]
      apply ih
      rw [countRead_append_one]
      by_cases hm : m0 = m
      · subst hm
        have := of_decide_eq_true (by simpa using h0)
        simp [this]
      · have : (m0 == m) = false := by simp [hm]
        simp [this]
        omega
    · rw [if_neg h0]
      exact ih reads h

/-- C6: recording a read-receipt batch is idempotent — running the same
batch a second time for the same user is a no-op — and it never produces a
second read row for a (message, user) pair that had at most one. -/
theorem readReceipts_idempotent (reads : List (String × String))
    (batch : List String) (userID : String) :
    updateReadMessages (updateReadMessages reads batch userID) batch userID
        = updateReadMessages reads batch userID
    ∧ ∀ m, countRead reads m userID ≤ 1 →
        countRead (updateReadMessages reads batch userID) m userID ≤ 1 := by
  constructor
  · exact updateReadMessages_stable _ _ _
      (fun m hm => countRead_processed reads batch m userID hm)
  · exact fun m hm => countRead_le_one_preserved reads batch m userID hm

theorem readReceipts_idempotent_witness :
    updateReadMessages (updateReadMessages [] ["1", "2", "1"] "u") ["1", "2", "1"] "u"
        = updateReadMessages [] ["1", "2", "1"] "u"
    ∧ countRead ([] : List (String × String)) "1" "u" ≤ 1
    ∧ countRead (updateReadMessages [] ["1", "2", "1"] "u") "1" "u" ≤ 1 :=
  ⟨(readReceipts_idempotent [] ["1", "2", "1"] "u").1, by decide,
    (readReceipts_idempotent [] ["1", "2", "1"] "u").2 "1" (by decide)⟩

/-! ### C7: invalid media payloads are rejected to the sender only -/

/-- C7: an inbound gif/media payload failing the trusted-domain validation
produces exactly one typed media-error frame addressed to the originating
sender, and nothing else: the store is unchanged (never persisted) and no
other participant is sent anything. -/
theorem gif_invalid_rejected_to_sender_only
    (c : Client) (db : DB) (gifMsg : ChatMessage) (now : Nat)
    (hinv : isValidGifMessage gifMsg = false) :
    handleGifMessage c db gifMsg now
      = (db, [Effect.sendToUser c.userID (.gifError "Invalid GIF message")]) := by
  unfold handleGifMessage
  rw [hinv]
  rfl

/-- A payload whose content is not a trusted-domain media URL. -/
def badGifMsg : ChatMessage :=
  ⟨"", "", "", "", "", "https://evil.example/x.gif", "", 0, "r", ""⟩

theorem gif_invalid_rejected_witness :
    isValidGifMessage badGifMsg = false
    ∧ handleGifMessage cliU dbEmpty badGifMsg 3
      = (dbEmpty, [Effect.sendToUser "u" (.gifError "Invalid GIF message")]) :=
  ⟨by decide,
    gif_invalid_rejected_to_sender_only cliU dbEmpty badGifMsg 3 (by decide)⟩

/-! ### C8: group-message persistence and fan-out -/

theorem getOrCreateGroupChatThread_preserves (db : DB) (g : String) :
    (getOrCreateGroupChatThread db g).2.messages = db.messages
    ∧ (getOrCreateGroupChatThread db g).2.nextMessageId = db.nextMessageId := by
  rcases hf : db.threads.find? (fun t => t.isGroup && t.groupId == g) with _ | t <;>
    simp [getOrCreateGroupChatThread, hf]

theorem normalizeMessageType_check (mt : String)
    (h : normalizeMessageType mt ≠ "gif") :
    messageTypeCheckOK (normalizeMessageType mt) = true := by
  unfold normalizeMessageType at *
  by_cases hb : (mt != "text" && mt != "emoji" && mt != "media" && mt != "gif") = true
  · rw [if_pos hb]; decide
  · rw [if_neg hb] at h ⊢
    have hmem : mt = "text" ∨ mt = "emoji" ∨ mt = "media" ∨ mt = "gif" := by
      by_contra hc
      push_neg at hc
      obtain ⟨h1, h2, h3, h4⟩ := hc
      exact hb (by simp [h1, h2, h3, h4])
    rcases hmem with h1 | h2 | h3 | h4 <;> subst_vars
    · decide
    · decide
    · decide
    · exact absurd rfl h

/-- A SQLite store holding one group "g" whose chat thread (id 5) has
participants "a" and "b", plus the users row of "a". -/
def dbG : DB :=
  ⟨[⟨5, true, "g", ["a", "b"]⟩], 6, [], 1, [], [],
   [("g", "a"), ("g", "b")], [("a", "A A", "av")]⟩

/-- A session of user "a". -/
def cliA : Client := ⟨1, "a"⟩

/-- A valid gif message addressed to group "g". -/
def groupGifMsg : ChatMessage :=
  ⟨"", "", "", "", "", "https://tenor.com/view/x.gif", "", 0, "", "g"⟩

/-- C8 counterexample: a gif message to group "g" is persisted (the
messages table grows by one row) but fanned out to nobody — the effect
list is empty although the chat thread has participants — because the
group branch of the gif handler's fan-out is unimplemented in the
source. -/
theorem group_gif_persisted_without_fanout :
    (handleGifMessage cliA dbG groupGifMsg 9).1.messages.length
        = dbG.messages.length + 1
    ∧ (handleGifMessage cliA dbG groupGifMsg 9).2 = []
    ∧ getChatParticipants (handleGifMessage cliA dbG groupGifMsg 9).1 "5"
        = ["a", "b"] := by decide

theorem normalizeMessageType_ne_gif (mt : String) (h : mt ≠ "gif") :
    normalizeMessageType mt ≠ "gif" := by
  unfold normalizeMessageType
  by_cases hb : (mt != "text" && mt != "emoji" && mt != "media" && mt != "gif") = true
  · rw [if_pos hb]; decide
  · rw [if_neg hb]; exact h

/-- Evaluation of handleChatMessage when the (normalized) message type
violates the messages CHECK constraint: the transaction rolls back and the
handler returns silently, leaving the store unchanged and sending
nothing. -/
theorem handleChatMessage_checkfail
    (c : Client) (db : DB) (data : ChatMessage) (now : Nat) (nm av : String)
    (hs : senderInfo db c.userID = some (nm, av))
    (hcheckf : messageTypeCheckOK (normalizeMessageType data.messageType) = false) :
    handleChatMessage c db data now = (db, []) := by
  obtain ⟨cid, d1, hr⟩ :
      ∃ a b, (if data.groupID != "" then getOrCreateGroupChatThread db data.groupID
        else getOrCreatePrivateChatThread db c.userID data.recipientID) = (a, b) :=
    ⟨_, _, rfl⟩
  unfold handleChatMessage SaveMessageAndGetIDs
  rw [hs]
  dsimp only
  rw [hr]
  simp only [hcheckf]
  simp

/-- A group-addressed run of handleChatMessage whose normalized type
passes the CHECK constraint: one appended messages row and a single send
over the resolved thread's participant list, with users outside that list
the target of no effect. -/
theorem handleChatMessage_group_run
    (c : Client) (db : DB) (data : ChatMessage) (now : Nat) (nm av : String)
    (hs : senderInfo db c.userID = some (nm, av))
    (hrec : data.recipientID = "")
    (hgrp : data.groupID ≠ "")
    (hmt : normalizeMessageType data.messageType ≠ "gif") :
    ∃ p,
      (handleChatMessage c db data now).2
        = [Effect.sendToUsers (getChatParticipants (handleChatMessage c db data now).1
            (toString (getOrCreateGroupChatThread db data.groupID).1)) p]
      ∧ (handleChatMessage c db data now).1.messages = db.messages
          ++ [⟨db.nextMessageId, (getOrCreateGroupChatThread db data.groupID).1,
               c.userID, data.content, normalizeMessageType data.messageType, now⟩]
      ∧ ∀ v, v ∉ getChatParticipants (handleChatMessage c db data now).1
            (toString (getOrCreateGroupChatThread db data.groupID).1) →
          ∀ e ∈ (handleChatMessage c db data now).2, v ∉ targetsOf e := by
  have hgrpB : (data.groupID != "") = true := bne_iff_ne.mpr hgrp
  have hrecB : (data.recipientID != "") = false := by simp [hrec]
  have hcheck := normalizeMessageType_check data.messageType hmt
  have hpres := getOrCreateGroupChatThread_preserves db data.groupID
  obtain ⟨chatID, db1, hgc⟩ :
      ∃ cid d1, getOrCreateGroupChatThread db data.groupID = (cid, d1) :=
    ⟨_, _, rfl⟩
  have heval : handleChatMessage c db data now
      = ({ db1 with
            messages := db1.messages ++ [⟨db1.nextMessageId, chatID, c.userID,
              data.content, normalizeMessageType data.messageType, now⟩],
            nextMessageId := db1.nextMessageId + 1 },
         sendMessageToRecipients
           { db1 with
              messages := db1.messages ++ [⟨db1.nextMessageId, chatID, c.userID,
                data.content, normalizeMessageType data.messageType, now⟩],
              nextMessageId := db1.nextMessageId + 1 }
           { data with
              id := toString db1.nextMessageId, chatID := toString chatID,
              senderID := c.userID, senderName := nm, senderAvatar := av,
              messageType := normalizeMessageType data.messageType,
              timestamp := now }) := by
    unfold handleChatMessage SaveMessageAndGetIDs
    rw [hs]
    simp only [hgrpB, if_true, hgc, hcheck]
  rw [hgc] at hpres
  have heffs : (handleChatMessage c db data now).2
      = [Effect.sendToUsers
          (getChatParticipants (handleChatMessage c db data now).1
            (toString (getOrCreateGroupChatThread db data.groupID).1))
          (.chat { data with
            id := toString db1.nextMessageId, chatID := toString chatID,
            senderID := c.userID, senderName := nm, senderAvatar := av,
            messageType := normalizeMessageType data.messageType,
            timestamp := now })] := by
    rw [heval]
    simp only [sendMessageToRecipients, hrecB, hgrpB, hgc]
    simp
  refine ⟨_, heffs, ?_, ?_⟩
  · have hm1 : db1.messages = db.messages := hpres.1
    have hm2 : db1.nextMessageId = db.nextMessageId := hpres.2
    rw [heval]
    simp [hm1, hm2, hgc]
  · intro v hv e he
    rw [heffs] at he
    rw [List.mem_singleton] at he
    subst he
    simpa [targetsOf] using hv

/-- C8 amended: a group message sent through the chat handler with any
declared type other than "gif" is persisted exactly once and fanned out
through exactly one send over the chat thread's current participant list
(not the group membership list), and a user outside that participant list
is the target of no effect; a chat-handler message whose declared type is
"gif" survives the handler's validation but violates the messages table's
CHECK constraint (text/emoji/media), so the transaction rolls back and the
handler returns silently: nothing persisted, nothing sent.  A group
message through the gif handler is persisted but not fanned out (see the
counterexample). -/
theorem groupChat_persisted_once_fanout_chat_participants
    (c : Client) (db : DB) (data : ChatMessage) (now : Nat) (nm av : String)
    (hs : senderInfo db c.userID = some (nm, av))
    (hrec : data.recipientID = "")
    (hgrp : data.groupID ≠ "") :
    (data.messageType = "gif" → handleChatMessage c db data now = (db, []))
    ∧ (data.messageType ≠ "gif" →
        ∃ p,
          (handleChatMessage c db data now).2
            = [Effect.sendToUsers (getChatParticipants (handleChatMessage c db data now).1
                (toString (getOrCreateGroupChatThread db data.groupID).1)) p]
          ∧ (handleChatMessage c db data now).1.messages = db.messages
              ++ [⟨db.nextMessageId, (getOrCreateGroupChatThread db data.groupID).1,
                   c.userID, data.content, normalizeMessageType data.messageType, now⟩]
          ∧ ∀ v, v ∉ getChatParticipants (handleChatMessage c db data now).1
                (toString (getOrCreateGroupChatThread db data.groupID).1) →
              ∀ e ∈ (handleChatMessage c db data now).2, v ∉ targetsOf e) := by
  constructor
  · intro hgif
    apply handleChatMessage_checkfail c db data now nm av hs
    rw [hgif]
    decide
  · intro hngif
    exact handleChatMessage_group_run c db data now nm av hs hrec hgrp
      (normalizeMessageType_ne_gif data.messageType hngif)

/-- A chat message with an unrecognized declared type, addressed to
group "g". -/
def chatData8 : ChatMessage :=
  ⟨"", "", "", "", "", "hello", "sticker", 0, "", "g"⟩

/-- A chat message with declared type "gif", addressed to group "g". -/
def gifChatData8 : ChatMessage :=
  ⟨"", "", "", "", "", "nice", "gif", 0, "", "g"⟩

theorem groupChat_fanout_witness :
    chatData8.groupID ≠ ""
    ∧ chatData8.messageType ≠ "gif"
    ∧ (∃ p, (handleChatMessage cliA dbG chatData8 9).2
        = [Effect.sendToUsers
            (getChatParticipants (handleChatMessage cliA dbG chatData8 9).1
              (toString (getOrCreateGroupChatThread dbG chatData8.groupID).1)) p])
    ∧ handleChatMessage cliA dbG gifChatData8 9 = (dbG, []) := by
  refine ⟨by decide, by decide, ?_, ?_⟩
  · obtain ⟨p, h1, _, _⟩ :=
      (groupChat_persisted_once_fanout_chat_participants cliA dbG chatData8 9
        "A A" "av" (by decide) (by decide) (by decide)).2 (by decide)
    exact ⟨p, h1⟩
  · exact (groupChat_persisted_once_fanout_chat_participants cliA dbG gifChatData8 9
      "A A" "av" (by decide) (by decide) (by decide)).1 (by decide)

/-! ### C9: presence visibility is bounded by the social graph -/

/-- C9: GetOnlineUsers returns only users that are online, differ from the
requester and are related to the requester through the followers table;
and a user unrelated to the requester neither appears in the result nor is
the target of any effect of the requester's presence broadcast. -/
theorem presence_restricted_to_related_users
    (hub : Hub) (fs : List (String × String)) (ru v : String)
    (b : Bool) (now : Nat) :
    (v ∈ GetOnlineUsers hub fs ru →
      ∃ st, (v, st) ∈ hub.userStatus ∧ st.isOnline = true ∧ v ≠ ru
        ∧ v ∈ getRelatedUsers fs ru)
    ∧ (v ∉ getRelatedUsers fs ru →
        v ∉ GetOnlineUsers hub fs ru
        ∧ ∀ e ∈ broadcastUserStatus fs ru b now, v ∉ targetsOf e) := by
  have honly : v ∈ GetOnlineUsers hub fs ru →
      ∃ st, (v, st) ∈ hub.userStatus ∧ st.isOnline = true ∧ v ≠ ru
        ∧ v ∈ getRelatedUsers fs ru := by
    intro hv
    unfold GetOnlineUsers at hv
    obtain ⟨⟨k, st⟩, hmem, hk⟩ := List.mem_map.mp hv
    obtain ⟨hin, hp⟩ := List.mem_filter.mp hmem
    simp only at hk
    subst hk
    simp only [Bool.and_eq_true, bne_iff_ne, ne_eq] at hp
    refine ⟨st, hin, hp.1.1, hp.1.2, ?_⟩
    simpa using hp.2
  refine ⟨honly, fun hnv => ⟨fun hv => ?_, ?_⟩⟩
  · obtain ⟨st, _, _, _, hrel⟩ := honly hv
    exact hnv hrel
  intro e he
  unfold broadcastUserStatus at he
  rcases List.mem_cons.mp he with he0 | hem
  · subst he0
    simpa [targetsOf] using hnv
  · obtain ⟨r, hr, he1⟩ := List.mem_map.mp hem
    subst he1
    simp only [targetsOf, List.mem_singleton]
    intro hvr
    subst hvr
    exact hnv hr

/-- Follower rows for the presence-privacy witness: only "v" is related
to "u"; "w" has no social-graph edge to "u". -/
def fsC9 : List (String × String) := [("u", "v")]

/-- Hub state with two online users "v" and "w". -/
def hubC9 : Hub :=
  ⟨[], [], [], [("v", ⟨"v", true, 0⟩), ("w", ⟨"w", true, 0⟩)], []⟩

theorem presence_restricted_witness :
    "w" ∉ getRelatedUsers fsC9 "u"
    ∧ "w" ∉ GetOnlineUsers hubC9 fsC9 "u" :=
  ⟨by decide,
    ((presence_restricted_to_related_users hubC9 fsC9 "u" "w" true 0).2
      (by decide)).1⟩

/-! ### C10: unknown message types are coerced to "text" -/

end SocialNetwork
